import Mathlib

/-!
Shallow embedding of the `py-wink` client (files `wink/api.py` and
`wink/auth.py`) and proofs about its credential lifecycle, HTTP request
construction/response processing, and device classification/indexing.

Conventions of the embedding:
* Python dictionaries of JSON values are association lists in key insertion
  order; `json.loads` is modelled by passing its result (`Option JVal`)
  alongside the raw body, since the JSON parser is an external library.
* Python `datetime` values are integers (seconds); `utcnow()` becomes an
  explicit `now : Int` parameter.  The `strftime`/`strptime` round-trip of
  `auth.py` is the identity on this representation.
* Exceptions become `Except PyErr`; the source raises `RuntimeError`,
  `AttributeError` and `KeyError`, modelled by the constructors of `PyErr`.
* The `devices` module is external to `src/`; `hasattr(devices, tag)` is
  modelled as membership of `tag` in an abstract `registry : List String`,
  and a constructed device object `device_cls(self, device_info)` is
  modelled by the pair `(tag, device_info)` that determines it.
-/

namespace Wink

/-- JSON values as produced by `json.loads`. -/
inductive JVal where
  | null
  | bool (b : Bool)
  | num (n : Int)
  | str (s : String)
  | arr (elems : List JVal)
  | obj (fields : List (String × JVal))
deriving Repr

/-- Lookup of a key in a Python dict modelled as an association list
(`d[k]` / `"k" in d` / `d.get(k)`). -/
def lookupField : List (String × JVal) → String → Option JVal
  | [], _ => none
  | (k, v) :: rest, key => if k = key then some v else lookupField rest key

/-- Python truthiness of a JSON value (`if content:`): empty containers,
empty strings, zero and `null`/`False` are falsy. -/
def JVal.truthy : JVal → Bool
  | .null => false
  | .bool b => b
  | .num n => n != 0
  | .str s => s ≠ ""
  | .arr xs => !xs.isEmpty
  | .obj kvs => !kvs.isEmpty

/-- The `content` local of `Wink._http`: initially the raw response body
(a Python `str`), possibly replaced by the value `json.loads` produced. -/
inductive PyContent where
  | raw (s : String)
  | json (v : JVal)
deriving Repr

/-- Python truthiness of the `content` local (line 127, `if content:`). -/
def PyContent.truthy : PyContent → Bool
  | .raw s => s ≠ ""
  | .json v => v.truthy

/-- The exceptions the embedded code can raise.  `httpStatus` is the
`RuntimeError` of `Wink._http` line 118 (carrying expected set, actual
status, method and path); `authError` is the `RuntimeError` of
`auth._auth` line 99 (carrying the status code); `attributeError` and
`keyError` are the corresponding Python built-ins. -/
inductive PyErr where
  | httpStatus (expected : List String) (actual : String) (method : String) (path : String)
  | authError (status : Nat)
  | attributeError
  | keyError
deriving Repr, DecidableEq

/-- `wink/api.py` lines 102–109: the `try` block parses the body and, on a
non-empty `errors` field, raises `RuntimeError`; but the bare
`except: pass` catches every exception raised inside the block —
including that very `RuntimeError`, whose raise happens after `content`
was already reassigned to the parsed value.  Hence: if the body is
non-empty and parses, `content` becomes the parsed value and no
exception escapes; if parsing fails, `content` stays the raw string. -/
def coerceContent (raw : String) (parsed : Option JVal) : PyContent :=
  if raw = "" then .raw raw
  else
    match parsed with
    | some j => .json j
    | none => .raw raw

/-- `wink/api.py` line 106's condition `"errors" in content and
content["errors"]`, for a parsed dict body: the `errors` field is present
and truthy. -/
def hasNonemptyErrors (v : JVal) : Bool :=
  match v with
  | .obj kvs =>
      match lookupField kvs "errors" with
      | some e => e.truthy
      | none => false
  | _ => false

/-- `wink/api.py` lines 97–129 of `Wink._http`, from `content =
response.content` on: coerce the body to JSON (errors raised inside the
`try` are swallowed, see `coerceContent`), check the status string
against the expected set, raising on mismatch, and return `content` if
truthy, else an empty dict. -/
def httpProcess (raw : String) (parsed : Option JVal) (status : Nat)
    (expected : List String) (method path : String) : Except PyErr PyContent :=
  let content := coerceContent raw parsed
  if expected.contains (toString status) then
    if content.truthy then .ok content else .ok (.json (.obj []))
  else
    .error (.httpStatus expected (toString status) method path)

/-- Python `dict.get(k)` applied to the result of `_http` (a `str` or a
parsed JSON value): only dicts have `.get`; on anything else Python
raises `AttributeError`.  On a dict it returns the value or `None`. -/
def pyDictGet (c : PyContent) (key : String) : Except PyErr (Option JVal) :=
  match c with
  | .json (.obj kvs) => .ok (lookupField kvs key)
  | _ => .error .attributeError

/-- `Wink._get` (lines 131–132): `self._http(path, "GET").get("data")`,
with `_http`'s default `expected="200"` coerced to the set `{"200"}`.
The reauth preamble of `_http` is independent of the response processing
and is not modelled here. -/
def wink_get (raw : String) (parsed : Option JVal) (status : Nat)
    (path : String) : Except PyErr (Option JVal) :=
  match httpProcess raw parsed status ["200"] "GET" path with
  | .ok c => pyDictGet c "data"
  | .error e => .error e

/-! ### Header construction (`Wink._headers`, `Wink._http` lines 69–76) -/

/-- Header mappings, as partial maps from header name to value.  Python
`dict.update` semantics: entries of the updating dict win. -/
def dictUpdate (d e : String → Option String) : String → Option String :=
  fun k => match e k with
    | some v => some v
    | none => d k

/-- The class attribute `Wink.content_headers`. -/
def content_headers : String → Option String :=
  fun k => if k = "Content-Type" then some "application/json" else none

/-- `Wink._headers` (lines 51–55): the Authorization and User-Agent
headers built from the held access token. -/
def wink_headers (access_token : String) : String → Option String :=
  fun k =>
    if k = "Authorization" then some ("Bearer " ++ access_token)
    else if k = "User-Agent" then some "wink/99.99.99 (iPhone; iOS 7.1.2; Scale/2.0)"
    else none

/-- `Wink._http` lines 69–76: `all_headers = self._headers();
all_headers.update(headers)`, then, when a body is present,
`all_headers.update(Wink.content_headers)`. -/
def all_headers (access_token : String) (headers : String → Option String)
    (hasBody : Bool) : String → Option String :=
  let h := dictUpdate (wink_headers access_token) headers
  if hasBody then dictUpdate h content_headers else h

/-! ### `auth.py`: staleness check and the grant routine -/

/-- `auth.need_to_reauth` (lines 28–41): true when `expires` is absent
from the kwargs, otherwise `utcnow() + tolerance >= expires`.  Datetimes
are seconds (`Int`); `now` stands for `utcnow()`. -/
def need_to_reauth (now : Int) (tolerance : Int) (expires : Option Int) : Bool :=
  match expires with
  | none => true
  | some e => decide (now + tolerance ≥ e)

/-- The kwargs dict threaded through `auth.auth` / `auth.reauth` /
`auth._auth`.  Required keys are plain fields; keys that may be absent
are `Option` (`none` = key not in the dict). -/
structure Kwargs where
  client_id : String
  client_secret : String
  base_url : String
  password : Option String
  username : Option String
  user_id : Option String
  access_token : Option String
  refresh_token : Option String
  expires : Option Int
deriving Repr, DecidableEq

/-- A successful-envelope auth response: the HTTP status together with
the `data` fields the code reads (`access_token`, `refresh_token`
required per the envelope of §6; `expires_in` optional, already coerced
by `int(...)`). -/
structure AuthResp where
  status : Nat
  access_token : String
  refresh_token : String
  expires_in : Option Int
deriving Repr, DecidableEq

/-- `auth._auth` (lines 79–126), with the transport's response passed in:
raise unless the status is 200 or 201 (carrying the status code);
default `expires_in` to 900; compute `expires = utcnow() + expires_in`;
copy the kwargs and overwrite the token fields and `expires`. -/
def authGrant (now : Int) (kw : Kwargs) (resp : AuthResp) : Except PyErr Kwargs :=
  if resp.status ≠ 201 ∧ resp.status ≠ 200 then
    .error (.authError resp.status)
  else
    let ein := resp.expires_in.getD 900
    .ok { kw with
            access_token := some resp.access_token,
            refresh_token := some resp.refresh_token,
            expires := some (now + ein) }

/-- `auth.auth` (lines 44–63): reads `kwargs["password"]` (KeyError when
absent), runs the grant, then `del result["password"]`. -/
def auth (now : Int) (kw : Kwargs) (resp : AuthResp) : Except PyErr Kwargs :=
  match kw.password with
  | none => .error .keyError
  | some _ =>
      match authGrant now kw resp with
      | .ok r => .ok { r with password := none }
      | .error e => .error e

/-- `auth.reauth` (lines 66–76): reads `kwargs["refresh_token"]`
(KeyError when absent) and runs the grant; the result is returned as-is
— nothing is deleted from it. -/
def reauth (now : Int) (kw : Kwargs) (resp : AuthResp) : Except PyErr Kwargs :=
  match kw.refresh_token with
  | none => .error .keyError
  | some _ => authGrant now kw resp

/-! ### Device classification and the facade's index
(`Wink.populate_devices`, `Wink.device_list`, `Wink.device_types`,
`Wink.devices_by_type`, `wink/api.py` lines 177–228) -/

/-- Python `str.endswith`, over the character sequence of the string. -/
def pyEndsWith (s suffix : String) : Bool :=
  suffix.data.isSuffixOf s.data

/-- The condition of `api.py` line 191 on one key of a descriptor:
`k.endswith("_id") and hasattr(devices, k[:-3])`.  Membership of the
prefix in `registry` models `hasattr` on the external `devices` module;
`k.dropRight 3` is `k[:-3]` (the two agree since `endswith` guarantees
at least 3 characters). -/
def qualifies (registry : List String) (k : String) : Bool :=
  pyEndsWith k "_id" && registry.contains (k.dropRight 3)

/-- The classification loop of `api.py` lines 189–193: walk the
descriptor's keys in their natural order, and take the prefix of the
first qualifying key (`break`); `none` when the loop finds no match
(`device_type` stays `None`). -/
def classify (registry : List String) : List String → Option String
  | [] => none
  | k :: rest =>
      if qualifies registry k then some (k.dropRight 3)
      else classify registry rest

/-- A raw device descriptor: a JSON object, keys in natural (insertion)
order. -/
abbrev Desc := List (String × JVal)

/-- The keys of a descriptor, in order (`for k in device_info`). -/
def descKeys (d : Desc) : List String := d.map Prod.fst

/-- A constructed device object, determined by its classified tag and its
descriptor (`device_cls(self, device_info)` with `device_cls = getattr
(devices, device_type)`; the constructor itself lives in the external
`devices` module). -/
abbrev Device := String × Desc

/-- The attribute names a `Wink` instance carries independently of the
dynamically installed per-type accessors: the fields set by `__init__`
and the class's own attributes and methods.  (Python-object dunder
attributes are left out: device-type tags are `devices`-module class
names and do not collide with them.)  `hasattr(self, device_type)` at
`api.py` line 204 consults these in addition to the dynamic attributes. -/
def winkBaseAttrs : List String :=
  ["debug", "auth", "auth_object", "_device_list", "_devices_by_type",
   "content_headers", "_url", "_headers", "_http", "_get", "_put", "_post",
   "_delete", "get_profile", "update_profile", "update_profile_email",
   "get_devices", "get_geofences", "get_services", "create_service",
   "get_icons", "get_channels", "get_inbound_channels",
   "get_outbound_channels", "populate_devices", "_get_device_func",
   "_get_device_list_func", "device_list", "device_types",
   "devices_by_type"]

/-- The keys of the `_devices_by_type` dict, in insertion order
(`list(self._devices_by_type)` iterates keys). -/
def mapKeys (m : List (String × List Device)) : List String := m.map Prod.fst

/-- Lookup in the `_devices_by_type` dict. -/
def lookupDevs : List (String × List Device) → String → Option (List Device)
  | [], _ => none
  | (k, v) :: rest, key => if k = key then some v else lookupDevs rest key

/-- Replacing the value of an existing key of `_devices_by_type`
(Python dict update keeps insertion order). -/
def updateMap (m : List (String × List Device)) (key : String)
    (v : List Device) : List (String × List Device) :=
  m.map (fun e => if e.1 = key then (key, v) else e)

/-- `hasattr(self, device_type)` at `api.py` line 204, mid-populate: true
when the name is one of the instance's static attributes, or a dynamic
single-device accessor (one per key of `_devices_by_type`), or a dynamic
list accessor (key + `"s"`). -/
def hasattrTag (m : List (String × List Device)) (tag : String) : Bool :=
  winkBaseAttrs.contains tag || (mapKeys m).contains tag
    || ((mapKeys m).map (fun k => k ++ "s")).contains tag

/-- The `for device_info in devices_info` loop of `api.py` lines 188–213,
threading the `_device_list` and `_devices_by_type` being built:
classify each descriptor (skipping unclassifiable ones), append the
device to the flat list, and append it to its type's bucket — creating
the bucket first unless `hasattr` already sees the name, in which case a
missing bucket raises `KeyError` at line 213. -/
def populateLoop (registry : List String) :
    List Desc → List Device → List (String × List Device) →
    Except PyErr (List Device × List (String × List Device))
  | [], lst, m => .ok (lst, m)
  | d :: rest, lst, m =>
      match classify registry (descKeys d) with
      | none => populateLoop registry rest lst m
      | some tag =>
          let dev : Device := (tag, d)
          let lst' := lst ++ [dev]
          if hasattrTag m tag then
            match lookupDevs m tag with
            | some devs => populateLoop registry rest lst' (updateMap m tag (devs ++ [dev]))
            | none => .error .keyError
          else
            populateLoop registry rest lst' (m ++ [(tag, [dev])])

/-- The attribute state of a `Wink` instance relevant to the device
index: `_device_list` and `_devices_by_type`, each `none` while the
attribute has never been assigned (reading it then raises
`AttributeError`). -/
structure WinkState where
  deviceListAttr : Option (List Device)
  devicesByTypeAttr : Option (List (String × List Device))
deriving Repr

/-- `Wink.__init__` (lines 31–44): sets `debug`, and `auth`/`auth_object`
from the persistence object — but never `_device_list` or
`_devices_by_type`. -/
def winkInit : WinkState :=
  { deviceListAttr := none, devicesByTypeAttr := none }

/-- `Wink.populate_devices` (lines 177–213), with the fetched device list
passed in (`devices_info = self.get_devices()` runs first):
`del self._device_list[:]` and the `delattr`/`clear` loop over
`_devices_by_type` read both attributes — raising `AttributeError` when
either was never assigned — and leave an empty list and empty dict,
which the loop then rebuilds from the response alone. -/
def populate_devices (registry : List String) (st : WinkState)
    (resp : List Desc) : Except PyErr WinkState :=
  match st.deviceListAttr with
  | none => .error .attributeError
  | some _ =>
      match st.devicesByTypeAttr with
      | none => .error .attributeError
      | some _ =>
          match populateLoop registry resp [] [] with
          | .ok (l, m) =>
              .ok { deviceListAttr := some l, devicesByTypeAttr := some m }
          | .error e => .error e

/-- `Wink.device_list` (lines 221–222): `list(self._device_list)` —
`AttributeError` when the attribute was never assigned. -/
def device_list (st : WinkState) : Except PyErr (List Device) :=
  match st.deviceListAttr with
  | none => .error .attributeError
  | some l => .ok l

/-- `Wink.device_types` (lines 224–225): `list(self._devices_by_type)`,
the keys in insertion order. -/
def device_types (st : WinkState) : Except PyErr (List String) :=
  match st.devicesByTypeAttr with
  | none => .error .attributeError
  | some m => .ok (mapKeys m)

/-- `Wink.devices_by_type` (lines 227–228):
`list(self._devices_by_type.get(typ, []))`. -/
def devices_by_type (st : WinkState) (typ : String) : Except PyErr (List Device) :=
  match st.devicesByTypeAttr with
  | none => .error .attributeError
  | some m => .ok ((lookupDevs m typ).getD [])

/-! ## Theorems -/

/-- C3: on a freshly constructed `Wink` instance the very first
`populate_devices` call — and likewise `device_list`, `device_types` and
`devices_by_type` before any successful populate — raises
`AttributeError`, because `__init__` never assigns the `_device_list`
and `_devices_by_type` attributes these operations read and clear. -/
theorem fresh_wink_attribute_error (registry : List String) (resp : List Desc)
    (typ : String) :
    populate_devices registry winkInit resp = .error .attributeError ∧
    device_list winkInit = .error .attributeError ∧
    device_types winkInit = .error .attributeError ∧
    devices_by_type winkInit typ = .error .attributeError :=
  ⟨rfl, rfl, rfl, rfl⟩

/-- C7: `need_to_reauth` returns true exactly when the kwargs carry no
`expires`, or `now + tolerance ≥ expires`; equivalently it returns false
exactly when `expires` lies strictly more than `tolerance` seconds after
`now`. -/
theorem need_to_reauth_spec (now tolerance : Int) (expires : Option Int) :
    (need_to_reauth now tolerance expires = true ↔
      expires = none ∨ ∃ e, expires = some e ∧ now + tolerance ≥ e) ∧
    (need_to_reauth now tolerance expires = false ↔
      ∃ e, expires = some e ∧ now + tolerance < e) := by
  cases expires with
  | none => simp [need_to_reauth]
  | some e =>
      simp only [need_to_reauth, Option.some.injEq, decide_eq_true_eq,
        decide_eq_false_iff_not, not_le]
      constructor
      · constructor
        · intro h; exact Or.inr ⟨e, rfl, h⟩
        · rintro (h | ⟨e', he', h⟩)
          · exact absurd h (by simp)
          · cases he'; exact h
      · constructor
        · intro h; exact ⟨e, rfl, h⟩
        · rintro ⟨e', he', h⟩; cases he'; exact h

/-- The caller-supplied header mapping `{"Authorization": "Evil"}`. -/
def cexHeaders : String → Option String :=
  fun k => if k = "Authorization" then some "Evil" else none

/-- C1 counterexample: `all_headers` applies `dict.update` with the
caller's headers after installing the Bearer header, so a caller-supplied
`Authorization` entry replaces it — the sent Authorization header is the
caller's value, not `"Bearer " ++ token`. -/
theorem auth_header_override_counterexample :
    all_headers "tok" cexHeaders false "Authorization" = some "Evil" ∧
    some "Evil" ≠ some ("Bearer " ++ "tok") :=
  ⟨rfl, by decide⟩

/-- C1 amended: the request carries `Authorization: Bearer <token>`
whenever the caller-supplied headers contain no `Authorization` entry;
when they do, the caller's entry replaces the Bearer header
(`dict.update` lets the caller win).  The body-induced
`Content-Type` update never touches `Authorization`. -/
theorem auth_header_merge (access_token : String)
    (headers : String → Option String) (hasBody : Bool) :
    (headers "Authorization" = none →
      all_headers access_token headers hasBody "Authorization" =
        some ("Bearer " ++ access_token)) ∧
    (∀ v, headers "Authorization" = some v →
      all_headers access_token headers hasBody "Authorization" = some v) := by
  constructor
  · intro h
    cases hasBody <;>
      simp [all_headers, dictUpdate, content_headers, wink_headers, h]
  · intro v h
    cases hasBody <;>
      simp [all_headers, dictUpdate, content_headers, wink_headers, h]

/-- Witness for `auth_header_merge` at a concrete token and an empty
caller header mapping. -/
theorem auth_header_merge_witness :
    all_headers "tok" (fun _ => none) false "Authorization" =
      some ("Bearer " ++ "tok") :=
  (auth_header_merge "tok" (fun _ => none) false).1 rfl

/-- The parsed body `{"errors": ["boom"]}` of the C2 failing input. -/
def errBody : JVal := .obj [("errors", .arr [.str "boom"])]

/-- C2: a status-200 response whose body carries a non-empty `errors`
field is NOT surfaced as an error: line 107's `raise RuntimeError` fires
inside the `try` block whose bare `except: pass` catches it, so `_http`
returns the parsed body normally instead of failing. -/
theorem errors_swallowed_by_bare_except :
    hasNonemptyErrors errBody = true ∧
    httpProcess "\x7b\"errors\": [\"boom\"]\x7d" (some errBody) 200
        ["200"] "GET" "/users/me" = .ok (.json errBody) :=
  ⟨rfl, rfl⟩

/-- C5 counterexample: a status-200 response whose parsed body
`{"x": 1}` has no `data` field — `_get` returns Python `None`
(`dict.get` misses), not an empty mapping. -/
theorem get_data_absent_counterexample :
    wink_get "\x7b\"x\": 1\x7d" (some (.obj [("x", .num 1)])) 200 "/users/me" =
      .ok none ∧
    (none : Option JVal) ≠ some (.obj []) :=
  ⟨rfl, fun h => Option.noConfusion h⟩

/-- C5 amended: for a request that passes status validation (status 200
against the default expected set) with a non-empty body parsing to a
JSON object, `_get` returns the parsed `data` field when present, and
Python `None` — not an empty mapping — when absent. -/
theorem get_data_field (raw : String) (kvs : List (String × JVal))
    (path : String) (hraw : raw ≠ "") :
    (∀ v, lookupField kvs "data" = some v →
      wink_get raw (some (.obj kvs)) 200 path = .ok (some v)) ∧
    (lookupField kvs "data" = none →
      wink_get raw (some (.obj kvs)) 200 path = .ok none) := by
  have hcoerce : coerceContent raw (some (.obj kvs)) = .json (.obj kvs) := by
    simp [coerceContent, hraw]
  have h200 : (toString (200 : Nat)) = "200" := by decide
  constructor
  · intro v h
    have hkvs : kvs ≠ [] := by
      intro he; rw [he] at h; exact Option.noConfusion h
    simp [wink_get, httpProcess, hcoerce, h200, PyContent.truthy, JVal.truthy,
      List.isEmpty_eq_true, hkvs, pyDictGet, h]
  · intro h
    cases kvs with
    | nil => simp [wink_get, httpProcess, hcoerce, h200, PyContent.truthy,
        JVal.truthy, pyDictGet, lookupField]
    | cons p rest =>
        simp [wink_get, httpProcess, hcoerce, h200, PyContent.truthy,
          JVal.truthy, pyDictGet, h]

/-- Witness for `get_data_field` at a concrete body carrying a `data`
field. -/
theorem get_data_field_witness :
    wink_get "x" (some (.obj [("data", .num 7)])) 200 "/users/me" =
      .ok (some (.num 7)) :=
  (get_data_field "x" [("data", .num 7)] "/users/me" (by decide)).1
    (.num 7) rfl

/-- Helper: the shape of a successful grant — the kwargs copy with the
token fields and `expires` overwritten. -/
theorem authGrant_ok (now : Int) (kw : Kwargs) (resp : AuthResp) (r : Kwargs)
    (h : authGrant now kw resp = .ok r) :
    r = { kw with
            access_token := some resp.access_token,
            refresh_token := some resp.refresh_token,
            expires := some (now + resp.expires_in.getD 900) } := by
  unfold authGrant at h
  split at h
  · exact absurd h (by simp)
  · simpa using h.symm

/-- Helper: a grant with status 200 or 201 succeeds. -/
theorem authGrant_ok_of_status (now : Int) (kw : Kwargs) (resp : AuthResp)
    (h : resp.status = 200 ∨ resp.status = 201) :
    authGrant now kw resp =
      .ok { kw with
              access_token := some resp.access_token,
              refresh_token := some resp.refresh_token,
              expires := some (now + resp.expires_in.getD 900) } := by
  unfold authGrant
  rcases h with h | h <;> rw [h] <;> simp

/-- Helper: a grant with a status other than 200/201 fails with the
status-carrying error. -/
theorem authGrant_error_of_status (now : Int) (kw : Kwargs) (resp : AuthResp)
    (h200 : resp.status ≠ 200) (h201 : resp.status ≠ 201) :
    authGrant now kw resp = .error (.authError resp.status) := by
  unfold authGrant
  simp [h200, h201]

/-- The kwargs of the C4 counterexample: a credentials dict that still
carries the seed's plaintext `password`. -/
def kwCex : Kwargs :=
  { client_id := "cid", client_secret := "sec", base_url := "https://wink.example",
    password := some "hunter2", username := some "alice", user_id := none,
    access_token := some "oldA", refresh_token := some "oldR",
    expires := some 500 }

/-- The server response of the C4 counterexample: HTTP 200 with
`expires_in = 0`. -/
def respCex : AuthResp :=
  { status := 200, access_token := "newA", refresh_token := "newR",
    expires_in := some 0 }

/-- The credentials `reauth 1000 kwCex respCex` returns. -/
def resCex : Kwargs :=
  { kwCex with access_token := some "newA", refresh_token := some "newR",
               expires := some 1000 }

/-- C4 counterexample: at `now = 1000`, a successful `refresh` on a
credentials dict carrying `password = "hunter2"` and a response with
`expires_in = 0` returns credentials that still contain the plaintext
password (`reauth` never deletes it) and whose `expires` equals `now`
rather than exceeding it. -/
theorem refresh_retains_password_counterexample :
    reauth 1000 kwCex respCex = .ok resCex ∧
    resCex.password = some "hunter2" ∧
    resCex.expires = some 1000 ∧ ¬ ((1000 : Int) < 1000) :=
  ⟨rfl, rfl, rfl, by decide⟩

/-- C4 amended: a successful `authenticate` deletes the password from
its result, while a successful `refresh` carries over exactly the
password field of its input (retained when present); both set
`expires = now + expires_in` (default 900), which exceeds `now` exactly
when the effective `expires_in` is positive. -/
theorem grant_password_expires (now : Int) (kw : Kwargs) (resp : AuthResp)
    (r r' : Kwargs)
    (hA : auth now kw resp = .ok r) (hR : reauth now kw resp = .ok r') :
    r.password = none ∧
    r'.password = kw.password ∧
    r.expires = some (now + resp.expires_in.getD 900) ∧
    r'.expires = some (now + resp.expires_in.getD 900) ∧
    (0 < resp.expires_in.getD 900 →
      (∃ e, r.expires = some e ∧ now < e) ∧
      (∃ e, r'.expires = some e ∧ now < e)) := by
  unfold auth at hA
  unfold reauth at hR
  rcases hpw : kw.password with _ | pw <;> rw [hpw] at hA
  · exact absurd hA (by simp)
  rcases hrt : kw.refresh_token with _ | rt <;> rw [hrt] at hR
  · exact absurd hR (by simp)
  rcases hg : authGrant now kw resp with e | g <;> rw [hg] at hA hR
  · exact absurd hA (by simp)
  have hgshape := authGrant_ok now kw resp g hg
  have hr : r = { g with password := none } := by
    simpa using hA.symm
  have hr' : r' = g := by simpa using hR.symm
  subst hr hr' hgshape
  refine ⟨rfl, by simp [hpw], rfl, rfl, fun hpos => ?_⟩
  exact ⟨⟨now + resp.expires_in.getD 900, rfl, by omega⟩,
         ⟨now + resp.expires_in.getD 900, rfl, by omega⟩⟩

/-- The kwargs used by the C4 witness. -/
def kwW : Kwargs :=
  { client_id := "c", client_secret := "s", base_url := "u",
    password := some "pw", username := none, user_id := none,
    access_token := none, refresh_token := some "rt", expires := none }

/-- The response used by the C4 witness: HTTP 201 with
`expires_in = 60`. -/
def respW : AuthResp :=
  { status := 201, access_token := "A", refresh_token := "R",
    expires_in := some 60 }

/-- What `auth 10 kwW respW` returns. -/
def rAuthW : Kwargs :=
  { kwW with password := none, access_token := some "A",
             refresh_token := some "R", expires := some 70 }

/-- What `reauth 10 kwW respW` returns. -/
def rReauthW : Kwargs :=
  { kwW with access_token := some "A", refresh_token := some "R",
             expires := some 70 }

/-- Witness for `grant_password_expires` at a concrete seed and
response. -/
theorem grant_password_expires_witness :
    rAuthW.password = none ∧
    rReauthW.password = kwW.password ∧
    rAuthW.expires = some ((10 : Int) + respW.expires_in.getD 900) ∧
    rReauthW.expires = some ((10 : Int) + respW.expires_in.getD 900) ∧
    (0 < respW.expires_in.getD 900 →
      (∃ e, rAuthW.expires = some e ∧ (10 : Int) < e) ∧
      (∃ e, rReauthW.expires = some e ∧ (10 : Int) < e)) :=
  grant_password_expires 10 kwW respW rAuthW rReauthW rfl rfl

/-- C6: the grant routine shared by `authenticate` and `refresh` fails
with an error carrying the response's status code whenever that status
is not 2xx (indeed whenever it is neither 200 nor 201), `auth` and
`reauth` surface that error, and the grant succeeds — returning new
credentials — when the status is 200 or 201. -/
theorem grant_status_check (now : Int) (kw : Kwargs) (resp : AuthResp) :
    (¬ (200 ≤ resp.status ∧ resp.status < 300) →
      authGrant now kw resp = .error (.authError resp.status) ∧
      (kw.password ≠ none →
        auth now kw resp = .error (.authError resp.status)) ∧
      (kw.refresh_token ≠ none →
        reauth now kw resp = .error (.authError resp.status))) ∧
    ((resp.status = 200 ∨ resp.status = 201) →
      (∃ r, authGrant now kw resp = .ok r) ∧
      (kw.password ≠ none → ∃ r, auth now kw resp = .ok r) ∧
      (kw.refresh_token ≠ none → ∃ r, reauth now kw resp = .ok r)) := by
  constructor
  · intro hbad
    have h200 : resp.status ≠ 200 := by omega
    have h201 : resp.status ≠ 201 := by omega
    have hg := authGrant_error_of_status now kw resp h200 h201
    refine ⟨hg, fun hpw => ?_, fun hrt => ?_⟩
    · rcases h : kw.password with _ | pw
      · exact absurd h hpw
      · simp [auth, h, hg]
    · rcases h : kw.refresh_token with _ | rt
      · exact absurd h hrt
      · simp [reauth, h, hg]
  · intro hgood
    have hg := authGrant_ok_of_status now kw resp hgood
    refine ⟨⟨_, hg⟩, fun hpw => ?_, fun hrt => ?_⟩
    · rcases h : kw.password with _ | pw
      · exact absurd h hpw
      · have hres : auth now kw resp =
            .ok { kw with
                    access_token := some resp.access_token,
                    refresh_token := some resp.refresh_token,
                    expires := some (now + resp.expires_in.getD 900),
                    password := none } := by
          simp [auth, h, hg]
        exact ⟨_, hres⟩
    · rcases h : kw.refresh_token with _ | rt
      · exact absurd h hrt
      · have hres : reauth now kw resp =
            .ok { kw with
                    access_token := some resp.access_token,
                    refresh_token := some resp.refresh_token,
                    expires := some (now + resp.expires_in.getD 900) } := by
          simp [reauth, h, hg]
        exact ⟨_, hres⟩

/-- The kwargs used by the C6 witness. -/
def kwC6 : Kwargs :=
  { client_id := "c", client_secret := "s", base_url := "u",
    password := some "pw", username := none, user_id := none,
    access_token := none, refresh_token := some "rt", expires := none }

/-- The rejected response of the C6 witness: HTTP 403. -/
def resp403 : AuthResp :=
  { status := 403, access_token := "", refresh_token := "",
    expires_in := none }

/-- The accepted response of the C6 witness: HTTP 200. -/
def resp200 : AuthResp :=
  { status := 200, access_token := "A", refresh_token := "R",
    expires_in := none }

/-- Witness for `grant_status_check`: a 403 response makes the grant
fail carrying 403, and a 200 response makes it succeed. -/
theorem grant_status_check_witness :
    authGrant 0 kwC6 resp403 = .error (.authError resp403.status) ∧
    (∃ r, authGrant 0 kwC6 resp200 = .ok r) ∧
    (∃ r, reauth 0 kwC6 resp200 = .ok r) :=
  ⟨((grant_status_check 0 kwC6 resp403).1 (by decide)).1,
   ((grant_status_check 0 kwC6 resp200).2 (Or.inl rfl)).1,
   ((grant_status_check 0 kwC6 resp200).2 (Or.inl rfl)).2.2 (by decide)⟩

/-- Helper: success cases of `classify` are exactly the splits
`keys = pre ++ k :: suf` where `k` qualifies and nothing before it
does. -/
theorem classify_eq_some_iff (registry : List String) :
    ∀ (keys : List String) (t : String),
      classify registry keys = some t ↔
      ∃ pre k suf, keys = pre ++ k :: suf ∧ qualifies registry k = true ∧
        t = k.dropRight 3 ∧ ∀ k' ∈ pre, qualifies registry k' = false := by
  intro keys
  induction keys with
  | nil =>
      intro t
      constructor
      · intro h; exact absurd h (by simp [classify])
      · rintro ⟨pre, k, suf, hsplit, -, -, -⟩
        exact absurd hsplit.symm (by simp)
  | cons a rest ih =>
      intro t
      by_cases hq : qualifies registry a = true
      · simp only [classify, hq, if_true]
        constructor
        · intro h
          obtain rfl : a.dropRight 3 = t := Option.some.inj h
          exact ⟨[], a, rest, rfl, hq, rfl, by simp⟩
        · rintro ⟨pre, k, suf, hsplit, hk, ht, hpre⟩
          cases pre with
          | nil =>
              obtain ⟨rfl, -⟩ : a = k ∧ rest = suf := by
                simpa using hsplit
              rw [ht]
          | cons p ps =>
              obtain ⟨rfl, -⟩ : a = p ∧ rest = ps ++ k :: suf := by
                simpa using hsplit
              exact absurd (hpre a (by simp)) (by simp [hq])
      · have hq' : qualifies registry a = false := by
          simpa using hq
        simp only [classify, hq', if_false, Bool.false_eq_true]
        rw [ih t]
        constructor
        · rintro ⟨pre, k, suf, hsplit, hk, ht, hpre⟩
          refine ⟨a :: pre, k, suf, by rw [hsplit]; rfl, hk, ht, ?_⟩
          intro k' hk'
          rcases List.mem_cons.mp hk' with rfl | hmem
          · exact hq'
          · exact hpre k' hmem
        · rintro ⟨pre, k, suf, hsplit, hk, ht, hpre⟩
          cases pre with
          | nil =>
              obtain ⟨rfl, -⟩ : a = k ∧ rest = suf := by
                simpa using hsplit
              exact absurd hk (by simp [hq'])
          | cons p ps =>
              obtain ⟨rfl, hrest⟩ : a = p ∧ rest = ps ++ k :: suf := by
                simpa using hsplit
              exact ⟨ps, k, suf, hrest, hk, ht,
                fun k' hmem => hpre k' (by simp [hmem])⟩

/-- Helper: `classify` returns `none` exactly when no key qualifies. -/
theorem classify_eq_none_iff (registry : List String) :
    ∀ keys : List String, classify registry keys = none ↔
      ∀ k ∈ keys, qualifies registry k = false := by
  intro keys
  induction keys with
  | nil => simp [classify]
  | cons a rest ih =>
      by_cases hq : qualifies registry a = true
      · simp [classify, hq]
      · have hq' : qualifies registry a = false := by simpa using hq
        simp [classify, hq', ih]

/-- C8: `classify` succeeds with tag `t` exactly when the descriptor's
keys split as `pre ++ k :: suf` with `k` the first qualifying key
(ends in `_id`, prefix registered; nothing in `pre` qualifies) and `t`
its prefix; it returns `none` exactly when no key qualifies, in which
case the populate loop skips the descriptor without error; and — the
embedding being a pure function of the registry and the key order — the
result is the same on every call. -/
theorem classify_spec (registry : List String) (keys : List String) :
    (∀ t, classify registry keys = some t ↔
      ∃ pre k suf, keys = pre ++ k :: suf ∧ qualifies registry k = true ∧
        t = k.dropRight 3 ∧ ∀ k' ∈ pre, qualifies registry k' = false) ∧
    (classify registry keys = none ↔
      ∀ k ∈ keys, qualifies registry k = false) ∧
    classify registry keys = classify registry keys ∧
    (∀ lst m d rest, classify registry (descKeys d) = none →
      populateLoop registry (d :: rest) lst m =
        populateLoop registry rest lst m) :=
  ⟨fun t => classify_eq_some_iff registry keys t,
   classify_eq_none_iff registry keys,
   rfl,
   fun lst m d rest h => by simp [populateLoop, h]⟩

/-- Witness for `classify_spec`: in `{"name": ..., "light_bulb_id": ...}`
with `light_bulb` registered, the key `light_bulb_id` is the first (and
only) qualifying key and wins; an `unknown_id`-only descriptor
classifies to `none` and is skipped by the loop. -/
theorem classify_spec_witness :
    classify ["light_bulb"] ["name", "light_bulb_id"] = some "light_bulb" ∧
    populateLoop ["light_bulb"] [[("unknown_id", .str "7")]] [] [] =
      populateLoop ["light_bulb"] [] [] [] :=
  ⟨((classify_spec ["light_bulb"] ["name", "light_bulb_id"]).1
      "light_bulb").mpr
      ⟨["name"], "light_bulb_id", [], rfl, by decide, by decide, by decide⟩,
   (classify_spec ["light_bulb"] []).2.2.2 [] [] [("unknown_id", .str "7")]
      [] (by decide)⟩

/-- Helper: `populate_devices` on any state whose two index attributes
are assigned ignores their previous values entirely — they are cleared
before the rebuild — so the result coincides with populating a clean
ready instance. -/
theorem populate_devices_replaces (registry : List String) (st : WinkState)
    (a : List Device) (b : List (String × List Device)) (resp : List Desc)
    (ha : st.deviceListAttr = some a) (hb : st.devicesByTypeAttr = some b) :
    populate_devices registry st resp =
      populate_devices registry
        { deviceListAttr := some [], devicesByTypeAttr := some [] } resp := by
  unfold populate_devices
  rw [ha, hb]

/-- Helper: a successful populate leaves exactly the loop's result in
the two index attributes. -/
theorem populate_devices_ok (registry : List String) (st st' : WinkState)
    (resp : List Desc)
    (h : populate_devices registry st resp = .ok st') :
    ∃ l m, populateLoop registry resp [] [] = .ok (l, m) ∧
      st'.deviceListAttr = some l ∧ st'.devicesByTypeAttr = some m := by
  unfold populate_devices at h
  split at h
  · exact absurd h (by simp)
  split at h
  · exact absurd h (by simp)
  split at h
  · rename_i l m heq
    refine ⟨l, m, heq, ?_, ?_⟩ <;>
      · obtain rfl := Except.ok.inj h
        rfl
  · exact absurd h (by simp)

/-- C9: after two successive populate calls with (possibly different)
responses, the resulting state equals what a single populate on a clean
ready instance produces from the second response alone — nothing
accumulates from the first — and the flat device list, the type list
and the per-type accessor are all read off the second response's loop
result. -/
theorem populate_no_accumulation (registry : List String)
    (st st1 st2 : WinkState) (r1 r2 : List Desc)
    (h1 : populate_devices registry st r1 = .ok st1)
    (h2 : populate_devices registry st1 r2 = .ok st2) :
    populate_devices registry
        { deviceListAttr := some [], devicesByTypeAttr := some [] } r2 =
      .ok st2 ∧
    ∃ l m, populateLoop registry r2 [] [] = .ok (l, m) ∧
      device_list st2 = .ok l ∧
      device_types st2 = .ok (mapKeys m) ∧
      ∀ typ, devices_by_type st2 typ = .ok ((lookupDevs m typ).getD []) := by
  obtain ⟨l1, m1, hl1, ha1, hb1⟩ := populate_devices_ok registry st st1 r1 h1
  have hrepl := populate_devices_replaces registry st1 l1 m1 r2 ha1 hb1
  obtain ⟨l, m, hl, ha, hb⟩ := populate_devices_ok registry st1 st2 r2 h2
  refine ⟨by rw [← hrepl]; exact h2, l, m, hl, ?_, ?_, ?_⟩
  · simp [device_list, ha]
  · simp [device_types, hb]
  · intro typ; simp [devices_by_type, hb]

/-- First-populate descriptor of the C9 witness. -/
def descW1 : Desc := [("light_bulb_id", .str "1")]

/-- Second-populate descriptors of the C9 witness: one light bulb and
one unknown device. -/
def descW2 : Desc := [("light_bulb_id", .str "2")]

/-- See `descW2`. -/
def descW3 : Desc := [("unknown_id", .str "7")]

/-- A `Wink` instance whose index attributes are assigned and empty. -/
def stReady : WinkState :=
  { deviceListAttr := some [], devicesByTypeAttr := some [] }

/-- The state after populating `stReady` with `[descW1]`. -/
def stW1 : WinkState :=
  { deviceListAttr := some [("light_bulb", descW1)],
    devicesByTypeAttr := some [("light_bulb", [("light_bulb", descW1)])] }

/-- The state after populating again with `[descW2, descW3]`. -/
def stW2 : WinkState :=
  { deviceListAttr := some [("light_bulb", descW2)],
    devicesByTypeAttr := some [("light_bulb", [("light_bulb", descW2)])] }

/-- Witness for `populate_no_accumulation` on a concrete pair of
responses. -/
theorem populate_no_accumulation_witness :
    populate_devices ["light_bulb"] stReady [descW2, descW3] = .ok stW2 ∧
    ∃ l m, populateLoop ["light_bulb"] [descW2, descW3] [] [] = .ok (l, m) ∧
      device_list stW2 = .ok l ∧
      device_types stW2 = .ok (mapKeys m) ∧
      ∀ typ, devices_by_type stW2 typ = .ok ((lookupDevs m typ).getD []) :=
  populate_no_accumulation ["light_bulb"] stW1 stW1 stW2 [descW1]
    [descW2, descW3] rfl rfl

end Wink
